import Mathlib

/-
Verification of the recepiesave extraction service against its design
specification.

The development shallowly embeds the Python sources of the repository:

* `src/extraction/utils/platform_detector.py` - URL platform detection
  (`Platform`, `detect_platform`), including its normalisation
  (`str.strip()` / `str.lower()`) modelled character-exactly on the
  ASCII alphabet that URLs use.
* `src/extraction/utils/url_parser.py` - Instagram reel-id extraction
  (`extract_reel_id`).
* `src/extraction/utils/platform_router.py` - handler routing
  (`routerGetHandler`).
* `src/extraction/utils/ai_analyzer.py` - the response-validation part of
  `analyze_content`.
* `src/extraction/utils/job_models.py` - the job record store
  (`JobStatus`, `update_job_status`, the `store_*` operations).
* `src/extraction/utils/job_processor.py` together with
  `src/extraction/utils/audio_processor.py` - the pipeline orchestrator
  `process_audio_job` and the scratch-file discipline of
  `convert_video_file_to_audio`.

External I/O (platform metadata fetching, downloads, ffmpeg, object
storage, the transcription / analysis / embedding services, and the
database acknowledgements of child-record inserts) is modelled by an
environment `Env` that fixes the outcome of each external call: `.ok v`
when the call returns `v`, `.error e` when it raises an exception whose
`str()` is `e.msg`.  Job-table writes (`update_job_status`,
`update_job_metadata`) are modelled as reliable state updates.
-/

namespace RecipeSave

/-- An exception value: only its `str()` rendering is observable at the
orchestrator boundary (`except Exception as e: ... str(e)`). -/
structure Err where
  msg : String
deriving DecidableEq, Repr

/-- Supported video platforms, from `platform_detector.py` (`class Platform`). -/
inductive Platform where
  | instagram
  | tiktok
  | youtube
  | facebook
  | unknown
deriving DecidableEq, Repr

/-- ASCII lower-casing of one character, modelling Python `str.lower` on the
code points that occur in URLs. -/
def toLowerC (c : Char) : Char :=
  if 65 ≤ c.toNat ∧ c.toNat ≤ 90 then Char.ofNat (c.toNat + 32) else c

/-- Python `str.strip()` whitespace test (ASCII whitespace). -/
def isSpaceC (c : Char) : Bool :=
  decide (c.toNat = 32 ∨ c.toNat = 9 ∨ c.toNat = 10 ∨ c.toNat = 13 ∨
    c.toNat = 11 ∨ c.toNat = 12)

/-- Python `str.lower` on the character list of a string. -/
def pyLower (l : List Char) : List Char := l.map toLowerC

/-- Python `str.strip()` on the character list of a string: drop leading and
trailing whitespace. -/
def pyStrip (l : List Char) : List Char :=
  ((l.dropWhile isSpaceC).reverse.dropWhile isSpaceC).reverse

/-- The normalisation performed by `detect_platform`:
`url.strip().lower()`. -/
def pyNormalize (l : List Char) : List Char := pyLower (pyStrip l)

/-- `p` is a prefix of `s` (Boolean). -/
def isPrefixL : List Char → List Char → Bool
  | [], _ => true
  | _ :: _, [] => false
  | p :: ps, c :: cs => p == c && isPrefixL ps cs

/-- `re.search` of a pattern that is a plain character literal: the pattern
occurs somewhere in the subject. -/
def containsL (pat : List Char) : List Char → Bool
  | [] => isPrefixL pat []
  | s@(_ :: cs) => isPrefixL pat s || containsL pat cs

/-- Python regex `\w` on ASCII: letters, digits, underscore. -/
def isWordC (c : Char) : Bool :=
  decide ((97 ≤ c.toNat ∧ c.toNat ≤ 122) ∨ (65 ≤ c.toNat ∧ c.toNat ≤ 90) ∨
    (48 ≤ c.toNat ∧ c.toNat ≤ 57) ∨ c.toNat = 95)

/-- The character class `[\w.-]` of the TikTok user pattern. -/
def tiktokClassC (c : Char) : Bool := isWordC c || c == '.' || c == '-'

/-- The regex `tiktok\.com/@[\w.-]+/video/` matches at the head of `s`.
Since `/` is not in the class `[\w.-]`, the greedy maximal run is the only
candidate and no backtracking case remains. -/
def tiktokAt (s : List Char) : Bool :=
  isPrefixL "tiktok.com/@".data s &&
    (let r := s.drop 12
     let run := r.takeWhile tiktokClassC
     !run.isEmpty && isPrefixL "/video/".data (r.drop run.length))

/-- `re.search` of `tiktok\.com/@[\w.-]+/video/`: try every start position. -/
def tiktokUserMatch : List Char → Bool
  | [] => false
  | s@(_ :: cs) => tiktokAt s || tiktokUserMatch cs

/-- The Instagram pattern group of `detect_platform`. -/
def instagramMatch (u : List Char) : Bool :=
  containsL "instagram.com/reel/".data u || containsL "instagram.com/reels/".data u ||
    containsL "instagram.com/p/".data u

/-- The TikTok pattern group of `detect_platform`. -/
def tiktokMatch (u : List Char) : Bool :=
  tiktokUserMatch u || containsL "vm.tiktok.com/".data u ||
    containsL "vt.tiktok.com/".data u || containsL "tiktok.com/t/".data u

/-- The YouTube pattern group of `detect_platform`. -/
def youtubeMatch (u : List Char) : Bool :=
  containsL "youtube.com/shorts/".data u || containsL "youtu.be/".data u

/-- The Facebook pattern group of `detect_platform`. -/
def facebookMatch (u : List Char) : Bool :=
  containsL "facebook.com/reel/".data u || containsL "facebook.com/reels/".data u ||
    containsL "facebook.com/watch/".data u || containsL "fb.watch/".data u ||
    containsL "m.facebook.com/story.php".data u

/-- The pattern cascade of `detect_platform` after normalisation, in source
order: Instagram, TikTok, YouTube, Facebook, else unknown. -/
def detectCore (u : List Char) : Platform :=
  if instagramMatch u then .instagram
  else if tiktokMatch u then .tiktok
  else if youtubeMatch u then .youtube
  else if facebookMatch u then .facebook
  else .unknown

/-- Any pattern group matches (the complement of the default case). -/
def matchesAnyPlatform (u : List Char) : Bool :=
  instagramMatch u || tiktokMatch u || youtubeMatch u || facebookMatch u

/-- A Python value passed as `url`: a string, or any non-string value
(`detect_platform` checks `isinstance(url, str)`). -/
inductive PyVal where
  | str (s : String)
  | nonStr
deriving Repr

/-- `detect_platform` from `platform_detector.py`: guard against falsy or
non-string input, normalise with `strip().lower()`, then run the pattern
cascade. -/
def detect_platform : PyVal → Platform
  | .nonStr => .unknown
  | .str s => if s.data = [] then .unknown else detectCore (pyNormalize s.data)

/- ### Normalisation lemmas used for the strip/lower invariance claim. -/

theorem char_toNat_ofNat_small (m : Nat) (h : m < 55296) :
    (Char.ofNat m).toNat = m := by
  unfold Char.ofNat
  rw [dif_pos (Or.inl h)]
  rfl

theorem toLowerC_toNat (c : Char) :
    (toLowerC c).toNat =
      if 65 ≤ c.toNat ∧ c.toNat ≤ 90 then c.toNat + 32 else c.toNat := by
  unfold toLowerC
  by_cases h : 65 ≤ c.toNat ∧ c.toNat ≤ 90
  · rw [if_pos h, if_pos h, char_toNat_ofNat_small]
    omega
  · rw [if_neg h, if_neg h]

theorem toLowerC_idem (c : Char) : toLowerC (toLowerC c) = toLowerC c := by
  by_cases h : 65 ≤ c.toNat ∧ c.toNat ≤ 90
  · have hc : toLowerC c = Char.ofNat (c.toNat + 32) := by
      unfold toLowerC
      rw [if_pos h]
    have hn : (Char.ofNat (c.toNat + 32)).toNat = c.toNat + 32 :=
      char_toNat_ofNat_small _ (by omega)
    rw [hc]
    unfold toLowerC
    rw [if_neg (by rw [hn]; omega)]
  · have hc : toLowerC c = c := by
      unfold toLowerC
      rw [if_neg h]
    rw [hc, hc]

theorem isSpaceC_toLowerC (c : Char) : isSpaceC (toLowerC c) = isSpaceC c := by
  unfold isSpaceC
  apply decide_eq_decide.mpr
  rw [toLowerC_toNat]
  by_cases h : 65 ≤ c.toNat ∧ c.toNat ≤ 90
  · rw [if_pos h]
    omega
  · rw [if_neg h]

theorem dropWhile_self_idem {α : Type} (p : α → Bool) (l : List α) :
    List.dropWhile p (List.dropWhile p l) = List.dropWhile p l := by
  induction l with
  | nil => rfl
  | cons c t ih =>
    by_cases h : p c
    · rw [List.dropWhile_cons, if_pos h]
      exact ih
    · rw [List.dropWhile_cons, if_neg h, List.dropWhile_cons, if_neg h]

theorem dropWhile_fixed_of_cons {α : Type} (p : α → Bool) (c : α) (t : List α)
    (h : List.dropWhile p (c :: t) = c :: t) : p c = false := by
  by_cases hc : p c
  · rw [List.dropWhile_cons, if_pos hc] at h
    have hle : (List.dropWhile p t).length ≤ t.length :=
      (List.dropWhile_suffix p).length_le
    have hlen := congrArg List.length h
    simp at hlen
    omega
  · simpa using hc

theorem dropWhile_reverse_trim {α : Type} (p : α → Bool) (a : List α)
    (ha : List.dropWhile p a = a) :
    List.dropWhile p ((List.dropWhile p a.reverse).reverse) =
      (List.dropWhile p a.reverse).reverse := by
  cases a with
  | nil => rfl
  | cons c t =>
    have hc : p c = false := dropWhile_fixed_of_cons p c t ha
    have hsplit :
        List.dropWhile p ((c :: t).reverse) =
          if (List.dropWhile p t.reverse).isEmpty then List.dropWhile p [c]
          else List.dropWhile p t.reverse ++ [c] := by
      rw [List.reverse_cons, List.dropWhile_append]
    by_cases he : (List.dropWhile p t.reverse).isEmpty
    · rw [hsplit, if_pos he]
      simp [List.dropWhile_cons, hc]
    · rw [hsplit, if_neg he]
      rw [List.reverse_append]
      simp only [List.reverse_cons, List.reverse_nil, List.nil_append,
        List.singleton_append]
      rw [List.dropWhile_cons, if_neg (by simp [hc])]

theorem pyStrip_idem (l : List Char) : pyStrip (pyStrip l) = pyStrip l := by
  unfold pyStrip
  set p := isSpaceC with hp
  set a := List.dropWhile p l with hA
  have ha : List.dropWhile p a = a := by
    rw [hA]
    exact dropWhile_self_idem p l
  set b := (List.dropWhile p a.reverse).reverse with hB
  have hb : List.dropWhile p b = b := by
    rw [hB]
    exact dropWhile_reverse_trim p a ha
  rw [hb]
  have hbrev : b.reverse = List.dropWhile p a.reverse := by
    rw [hB, List.reverse_reverse]
  rw [hbrev, dropWhile_self_idem]

theorem dropWhile_pyLower (l : List Char) :
    List.dropWhile isSpaceC (pyLower l) = pyLower (List.dropWhile isSpaceC l) := by
  unfold pyLower
  rw [List.dropWhile_map]
  have : (isSpaceC ∘ toLowerC) = isSpaceC := by
    funext c
    exact isSpaceC_toLowerC c
  rw [this]

theorem pyStrip_pyLower (l : List Char) :
    pyStrip (pyLower l) = pyLower (pyStrip l) := by
  unfold pyStrip
  rw [dropWhile_pyLower]
  unfold pyLower
  rw [← List.map_reverse, List.dropWhile_map]
  have : (isSpaceC ∘ toLowerC) = isSpaceC := by
    funext c
    exact isSpaceC_toLowerC c
  rw [this, ← List.map_reverse]

theorem pyLower_idem (l : List Char) : pyLower (pyLower l) = pyLower l := by
  unfold pyLower
  rw [List.map_map]
  apply List.map_congr_left
  intro c _
  exact toLowerC_idem c

theorem pyNormalize_idem (l : List Char) :
    pyNormalize (pyNormalize l) = pyNormalize l := by
  unfold pyNormalize
  rw [pyStrip_pyLower, pyStrip_idem, pyLower_idem]

theorem pyLower_eq_nil (l : List Char) : pyLower l = [] ↔ l = [] := by
  unfold pyLower
  exact List.map_eq_nil_iff

/- ### `url_parser.py`: Instagram reel-id extraction. -/

/-- Python `rstrip('/')`: drop trailing slashes. -/
def rstripSlash (l : List Char) : List Char :=
  (l.reverse.dropWhile (· == '/')).reverse

/-- Python `s.split(sep)[0]`: the prefix before the first occurrence of the
separator character. -/
def takeUntil (stop : Char) (l : List Char) : List Char :=
  l.takeWhile (· != stop)

/-- The URL normalisation inside `extract_reel_id`:
`url.strip().rstrip('/')`, then `.split('?')[0].split('#')[0].rstrip('/')`. -/
def normalizeReelUrl (l : List Char) : List Char :=
  rstripSlash (takeUntil '#' (takeUntil '?' (rstripSlash (pyStrip l))))

/-- The shortcode character class `[A-Za-z0-9_-]`. -/
def shortcodeC (c : Char) : Bool := isWordC c || c == '-'

/-- `re.search` of `instagram\.com/<part>/([A-Za-z0-9_-]+)` specialised to a
literal pattern followed by a captured non-empty class run: scan start
positions left to right, and at the first position where the literal matches
and is followed by at least one class character, capture the maximal run.
The optional `(?:https?://)?(?:www\.)?` prefixes of the source regex do not
change which occurrence matches nor the captured group, because they are
optional and the capture starts after the literal. -/
def findCapture (pat : List Char) : List Char → Option (List Char)
  | [] => none
  | s@(_ :: cs) =>
    if isPrefixL pat s then
      let r := s.drop pat.length
      let run := r.takeWhile shortcodeC
      if run.isEmpty then findCapture pat cs else some run
    else findCapture pat cs

/-- The pattern loop of `extract_reel_id`: for each pattern in order, if it
matches, accept its capture only when it has at least 5 characters, otherwise
fall through to the next pattern. -/
def firstValidCapture (pats : List (List Char)) (n : List Char) :
    Option (List Char) :=
  match pats with
  | [] => none
  | p :: ps =>
    match findCapture p n with
    | some run => if 5 ≤ run.length then some run else firstValidCapture ps n
    | none => firstValidCapture ps n

/-- `extract_reel_id` from `url_parser.py` (also the Instagram handler's
`extract_id`, which delegates to it): reject empty input, normalise, then try
the `/reels/`, `/reel/`, `/p/` patterns in order.  `.error` models the raised
`ValueError`. -/
def extract_reel_id (url : String) : Except String String :=
  if url.data.isEmpty then .error "URL must be a non-empty string"
  else
    match firstValidCapture
        ["instagram.com/reels/".data, "instagram.com/reel/".data,
          "instagram.com/p/".data]
        (normalizeReelUrl url.data) with
    | some run => .ok (String.mk run)
    | none =>
        .error "Invalid Instagram Reel URL. Please provide a valid Instagram Reel URL."

/- ### `platform_router.py`: handler routing. -/

/-- The message of the `ValueError` raised by `PlatformRouter.get_handler`
for an unsupported platform (the spec calls this error
`UnsupportedPlatform`). -/
def unsupportedPlatformMsg : String :=
  "Unsupported platform. Please provide a URL from Instagram Reels, TikTok, YouTube Shorts, or Facebook Reels."

/-- `PlatformRouter.get_handler`: run `detect_platform`; raise for unknown,
otherwise return the handler for the detected platform.  The router holds a
handler for each of the four platforms, so the `handlers.get` lookup never
fails; the handler itself is represented by its platform tag. -/
def routerGetHandler (url : String) : Except Err Platform :=
  match detect_platform (.str url) with
  | .unknown => .error ⟨unsupportedPlatformMsg⟩
  | .instagram => .ok .instagram
  | .tiktok => .ok .tiktok
  | .youtube => .ok .youtube
  | .facebook => .ok .facebook

/- ### `ai_analyzer.py`: response validation of `analyze_content`. -/

/-- A parsed content-analysis JSON response, field-wise: `none` models a
missing key.  (Field values are modelled at their expected types; a response
whose field has the wrong JSON type is outside this model.) -/
structure AnalysisJson where
  summary : Option String
  topics : Option (List String)
  sentiment : Option String
  category : Option String
deriving DecidableEq, Repr

/-- The analysis result returned by `analyze_content`. -/
structure AnalysisData where
  summary : String
  topics : List String
  sentiment : String
  category : String
deriving DecidableEq, Repr

/-- Python `str.lower` on a whole string. -/
def pyLowerStr (s : String) : String := String.mk (pyLower s.data)

/-- The response-handling tail of `analyze_content` (`ai_analyzer.py`): input
is the outcome of `json.loads` on the (fence-stripped) response text.  A parse
failure becomes the raised `RuntimeError` chain
(`Failed to parse AI analysis response` wrapped by the outer
`Failed to analyze content`); a parsed object has each missing required field
replaced by a default (`summary` / `topics` / `sentiment` / `category` get
"No summary available" / `[]` / "neutral" / "other"), an unexpected sentiment
is coerced to "neutral", and sentiment and category are lower-cased. -/
def analyze_content_parsed (parsed : Except String AnalysisJson) :
    Except Err AnalysisData :=
  match parsed with
  | .error e =>
      .error ⟨"Failed to analyze content: Failed to parse AI analysis response: " ++ e⟩
  | .ok j =>
      let summary := j.summary.getD "No summary available"
      let topics := j.topics.getD []
      let sentiment0 := pyLowerStr (j.sentiment.getD "neutral")
      let sentiment :=
        if sentiment0 = "positive" ∨ sentiment0 = "neutral" ∨ sentiment0 = "negative"
        then sentiment0 else "neutral"
      let category := pyLowerStr (j.category.getD "other")
      .ok ⟨summary, topics, sentiment, category⟩

/- ### `job_models.py`: job status and the job record store. -/

/-- `class JobStatus` from `job_models.py`. -/
inductive JobStatus where
  | pending
  | downloading
  | extractingAudio
  | uploading
  | transcribing
  | analyzing
  | generatingEmbeddings
  | storing
  | completed
  | failed
deriving DecidableEq, Repr

/-- The metadata map persisted by `update_job_metadata` (title, duration,
uploader, description). -/
structure JobMetadata where
  title : String
  duration : Nat
  uploader : String
  description : String
deriving DecidableEq, Repr

/-- The mutable row of one job in the `audio_jobs` table (the fields the
claims are about). -/
structure JobState where
  status : JobStatus
  errorMessage : Option String
  metadata : Option JobMetadata
deriving DecidableEq, Repr

/-- `update_job_status`: the update always writes `status`; the
`error_message` key is included only when the passed message is truthy
(`if error_message:`), i.e. present and non-empty - otherwise the stored
value is left unchanged. -/
def update_job_status (j : JobState) (s : JobStatus) (errMsg : Option String) :
    JobState :=
  { j with
    status := s
    errorMessage :=
      match errMsg with
      | some m => if m = "" then j.errorMessage else some m
      | none => j.errorMessage }

/-- `update_job_metadata`: overwrite the job's `metadata_json`. -/
def update_job_metadata (j : JobState) (m : JobMetadata) : JobState :=
  { j with metadata := some m }

/-- One `audio_files` row.  Byte strings are modelled by their length
(`size_bytes` is `len(audio_bytes)`). -/
structure AudioFileRec where
  id : Nat
  filePath : String
  supabaseUrl : String
  duration : Nat
  sizeBytes : Nat
deriving DecidableEq, Repr

/-- One `thumbnails` row. -/
structure ThumbnailRec where
  thumbnailUrl : String
deriving DecidableEq, Repr

/-- One `transcriptions` row (`timestamps_json` kept as an opaque payload). -/
structure TranscriptionRec where
  audioFileId : Nat
  text : String
  language : Option String
  timestamps : Option String
deriving DecidableEq, Repr

/-- One `analyses` row. -/
structure AnalysisRec where
  audioFileId : Nat
  summary : String
  topics : List String
  sentiment : String
  category : String
deriving DecidableEq, Repr

/-- One `embeddings` row (`vector` is serialised to the pgvector literal). -/
structure EmbeddingRec where
  audioFileId : Nat
  vectorStr : String
  metaSummary : String
  metaCategory : String
  metaSentiment : String
deriving DecidableEq, Repr

/-- The persistent store owned by one job: its row plus the child tables.
`uuid4` freshness is modelled by the `nextId` counter.  No operation of
`job_models.py` ever deletes a row. -/
structure StoreState where
  job : JobState
  audioFiles : List AudioFileRec
  thumbnails : List ThumbnailRec
  transcriptions : List TranscriptionRec
  analyses : List AnalysisRec
  embeddings : List EmbeddingRec
  nextId : Nat
deriving DecidableEq, Repr

/-- `store_audio_file`: insert a row, or re-raise the database error wrapped
as `RuntimeError("Failed to store audio file: ...")`.  `db` is the database
acknowledgement of the insert. -/
def store_audio_file (st : StoreState) (db : Except Err Unit)
    (filePath supabaseUrl : String) (duration sizeBytes : Nat) :
    Except Err (Nat × StoreState) :=
  match db with
  | .error e => .error ⟨"Failed to store audio file: " ++ e.msg⟩
  | .ok _ =>
      .ok (st.nextId,
        { st with
          audioFiles :=
            st.audioFiles ++ [⟨st.nextId, filePath, supabaseUrl, duration, sizeBytes⟩]
          nextId := st.nextId + 1 })

/-- `store_thumbnail`, with its wrapped error. -/
def store_thumbnail (st : StoreState) (db : Except Err Unit)
    (thumbnailUrl : String) : Except Err (Nat × StoreState) :=
  match db with
  | .error e => .error ⟨"Failed to store thumbnail: " ++ e.msg⟩
  | .ok _ =>
      .ok (st.nextId,
        { st with
          thumbnails := st.thumbnails ++ [⟨thumbnailUrl⟩]
          nextId := st.nextId + 1 })

/-- `store_transcription`, with its wrapped error. -/
def store_transcription (st : StoreState) (db : Except Err Unit)
    (audioFileId : Nat) (text : String) (language : Option String)
    (timestamps : Option String) : Except Err (Nat × StoreState) :=
  match db with
  | .error e => .error ⟨"Failed to store transcription: " ++ e.msg⟩
  | .ok _ =>
      .ok (st.nextId,
        { st with
          transcriptions :=
            st.transcriptions ++ [⟨audioFileId, text, language, timestamps⟩]
          nextId := st.nextId + 1 })

/-- `store_analysis`, with its wrapped error. -/
def store_analysis (st : StoreState) (db : Except Err Unit)
    (audioFileId : Nat) (ad : AnalysisData) : Except Err (Nat × StoreState) :=
  match db with
  | .error e => .error ⟨"Failed to store analysis: " ++ e.msg⟩
  | .ok _ =>
      .ok (st.nextId,
        { st with
          analyses :=
            st.analyses ++ [⟨audioFileId, ad.summary, ad.topics, ad.sentiment, ad.category⟩]
          nextId := st.nextId + 1 })

/-- `store_embedding`: serialises the vector to the pgvector literal form and
inserts, with its wrapped error. -/
def store_embedding (st : StoreState) (db : Except Err Unit)
    (audioFileId : Nat) (vector : List Int) (ad : AnalysisData) :
    Except Err (Nat × StoreState) :=
  match db with
  | .error e => .error ⟨"Failed to store embedding: " ++ e.msg⟩
  | .ok _ =>
      .ok (st.nextId,
        { st with
          embeddings :=
            st.embeddings ++
              [⟨audioFileId, "[" ++ String.intercalate "," (vector.map toString) ++ "]",
                ad.summary, ad.category, ad.sentiment⟩]
          nextId := st.nextId + 1 })

/- ### `job_processor.py`: the pipeline orchestrator. -/

/-- The metadata dictionary returned by `handler.fetch_metadata`; `none`
models a missing key. -/
structure VideoMetadata where
  videoUrl : Option String
  title : Option String
  duration : Option Nat
  uploader : Option String
  channel : Option String
  description : Option String
  caption : Option String
deriving DecidableEq, Repr

/-- The dictionary returned by `transcribe_audio` (typed fields; `text` is
accessed unconditionally by the orchestrator). -/
structure TranscriptData where
  text : String
  language : Option String
  segments : Option String
deriving DecidableEq, Repr

/-- The result of `convert_video_file_to_audio`: audio bytes (modelled by
length), the generated filename, and optional thumbnail bytes. -/
structure ConvertOut where
  audioBytes : Nat
  filename : String
  thumbnail : Option Nat
deriving DecidableEq, Repr

/-- Python `a or b` for optional strings (`None` and `""` are falsy). -/
def pyOrStr (x : Option String) (d : String) : String :=
  match x with
  | some s => if s = "" then d else s
  | none => d

/-- Python truthiness of an optional byte string (`None` and `b""` falsy). -/
def pyTruthyBytes (b : Option Nat) : Bool :=
  match b with
  | some n => n != 0
  | none => false

/-- Observable side effects of one run: job-table writes and scratch-file
lifecycle events. -/
inductive Event where
  | statusWrite (s : JobStatus)
  | metadataWrite
  | mkdtemp
  | rmtreeTempDir
  | tmpAudioCreate
  | tmpAudioUnlink
deriving DecidableEq, Repr

/-- Outcomes of the external calls made during one run of
`process_audio_job`: each field is the value returned, or the exception
raised, by the corresponding call.  `tmpAudioName` is the OS-chosen name of
the scratch audio file. -/
structure Env where
  fetchMetadata : Except Err VideoMetadata
  downloadVideo : Except Err String
  extractAudio : Except Err Unit
  extractThumb : Except Err Nat
  readAudio : Except Err Nat
  tmpAudioName : String
  uploadThumbnail : Except Err String
  storeThumbnailDb : Except Err Unit
  uploadAudio : Except Err (String × String)
  storeAudioDb : Except Err Unit
  transcribeAudio : Except Err TranscriptData
  storeTranscriptionDb : Except Err Unit
  analysisResponse : Except Err (Except String AnalysisJson)
  storeAnalysisDb : Except Err Unit
  generateEmbeddings : Except Err (List Int)
  storeEmbeddingDb : Except Err Unit

/-- `convert_video_file_to_audio` from `audio_processor.py`, as a trace of
scratch-file events plus an outcome.  A named temporary audio file is created
first; `extract_audio_to_mp3` may fail; thumbnail extraction failure is
caught and yields `None`; reading the produced audio file back may fail; the
`finally` block unlinks the temporary audio file on every path. -/
def convert_video_file_to_audio (env : Env) :
    List Event × Except Err ConvertOut :=
  match env.extractAudio with
  | .error e => ([.tmpAudioCreate, .tmpAudioUnlink], .error e)
  | .ok _ =>
    let thumb : Option Nat :=
      match env.extractThumb with
      | .error _ => none
      | .ok n => some n
    match env.readAudio with
    | .error e => ([.tmpAudioCreate, .tmpAudioUnlink], .error e)
    | .ok n =>
        ([.tmpAudioCreate, .tmpAudioUnlink],
          .ok ⟨n, "video_audio_" ++ env.tmpAudioName, thumb⟩)

/-- Lines 79-89 of `job_processor.py`: make the per-job scratch directory,
download the video, convert it, and remove the scratch directory in the
`finally` block on every path (`shutil.rmtree(..., ignore_errors=True)`). -/
def extractionStage (env : Env) : List Event × Except Err ConvertOut :=
  match env.downloadVideo with
  | .error e => ([.mkdtemp, .rmtreeTempDir], .error e)
  | .ok _ =>
    let r := convert_video_file_to_audio env
    (.mkdtemp :: (r.1 ++ [.rmtreeTempDir]), r.2)

/-- The final state, event trace and outcome of one run. -/
structure RunResult where
  state : StoreState
  trace : List Event
  result : Except Err Unit
deriving Repr

/-- The `except Exception` boundary of `process_audio_job`: write status
FAILED passing `str(e)` as the error message, then re-raise `e`. -/
def failWith (st : StoreState) (tr : List Event) (e : Err) : RunResult :=
  { state := { st with job := update_job_status st.job .failed (some e.msg) }
    trace := tr ++ [.statusWrite .failed]
    result := .error e }

/-- `str(KeyError('video_url'))`, raised by `metadata['video_url']` when the
key is absent (\x7b the quotes are part of Python's rendering \x7d). -/
def keyErrorVideoUrl : Err := ⟨"\x27video_url\x27"⟩

/-- `process_audio_job` from `job_processor.py`, lines 44-164, over the
outcome environment `env` and the passed URL.  Job-table writes are modelled
as reliable; every other call takes its outcome from `env`. -/
def process_audio_job (env : Env) (url : String) (st0 : StoreState) :
    RunResult :=
  let st1 := { st0 with job := update_job_status st0.job .downloading none }
  let tr1 : List Event := [.statusWrite .downloading]
  match routerGetHandler url with
  | .error e => failWith st1 tr1 e
  | .ok _platform =>
    match env.fetchMetadata with
    | .error e => failWith st1 tr1 e
    | .ok md =>
      match md.videoUrl with
      | none => failWith st1 tr1 keyErrorVideoUrl
      | some _videoUrl =>
        let meta : JobMetadata :=
          ⟨md.title.getD "Video", md.duration.getD 0,
            pyOrStr md.uploader (pyOrStr md.channel "Unknown"),
            pyOrStr md.description (pyOrStr md.caption "")⟩
        let st2 := { st1 with job := update_job_metadata st1.job meta }
        let tr2 := tr1 ++ [.metadataWrite]
        let st3 := { st2 with job := update_job_status st2.job .extractingAudio none }
        let tr3 := tr2 ++ [.statusWrite .extractingAudio]
        let ext := extractionStage env
        let tr4 := tr3 ++ ext.1
        match ext.2 with
        | .error e => failWith st3 tr4 e
        | .ok out =>
          let thumbStep : StoreState × List Event :=
            if pyTruthyBytes out.thumbnail then
              let stU := { st3 with job := update_job_status st3.job .uploading none }
              let trU := tr4 ++ [.statusWrite .uploading]
              match env.uploadThumbnail with
              | .error _ => (stU, trU)
              | .ok turl =>
                match store_thumbnail stU env.storeThumbnailDb turl with
                | .error _ => (stU, trU)
                | .ok r => (r.2, trU)
            else (st3, tr4)
          let st5 := thumbStep.1
          let tr5 := thumbStep.2
          let st6 := { st5 with job := update_job_status st5.job .uploading none }
          let tr6 := tr5 ++ [.statusWrite .uploading]
          match env.uploadAudio with
          | .error e => failWith st6 tr6 e
          | .ok au =>
            match store_audio_file st6 env.storeAudioDb au.2 au.1 meta.duration
                out.audioBytes with
            | .error e => failWith st6 tr6 e
            | .ok afr =>
              let audioFileId := afr.1
              let st8 := { afr.2 with job := update_job_status afr.2.job .transcribing none }
              let tr8 := tr6 ++ [.statusWrite .transcribing]
              match env.transcribeAudio with
              | .error e => failWith st8 tr8 e
              | .ok td =>
                match store_transcription st8 env.storeTranscriptionDb audioFileId
                    td.text td.language td.segments with
                | .error e => failWith st8 tr8 e
                | .ok trr =>
                  let st10 := { trr.2 with job := update_job_status trr.2.job .analyzing none }
                  let tr10 := tr8 ++ [.statusWrite .analyzing]
                  let anres : Except Err AnalysisData :=
                    match env.analysisResponse with
                    | .error e => .error ⟨"Failed to analyze content: " ++ e.msg⟩
                    | .ok parsed => analyze_content_parsed parsed
                  match anres with
                  | .error e => failWith st10 tr10 e
                  | .ok ad =>
                    match store_analysis st10 env.storeAnalysisDb audioFileId ad with
                    | .error e => failWith st10 tr10 e
                    | .ok anr =>
                      let st12 := { anr.2 with job := update_job_status anr.2.job .generatingEmbeddings none }
                      let tr12 := tr10 ++ [.statusWrite .generatingEmbeddings]
                      match env.generateEmbeddings with
                      | .error e => failWith st12 tr12 e
                      | .ok vec =>
                        match store_embedding st12 env.storeEmbeddingDb audioFileId
                            vec ad with
                        | .error e => failWith st12 tr12 e
                        | .ok emr =>
                          let st14 := { emr.2 with job := update_job_status emr.2.job .storing none }
                          let st15 := { st14 with job := update_job_status st14.job .completed none }
                          { state := st15
                            trace := tr12 ++
                              [.statusWrite .storing, .statusWrite .completed]
                            result := .ok () }

/-- The store state right after `create_job`: status PENDING, no error
message, no metadata, no child rows. -/
def initStoreState : StoreState := ⟨⟨.pending, none, none⟩, [], [], [], [], [], 0⟩

/-- One run of the orchestrator on a freshly created job. -/
def runJob (env : Env) (url : String) : RunResult :=
  process_audio_job env url initStoreState

/-- The statuses written to the job row, in order, by a trace. -/
def statusWrites : List Event → List JobStatus :=
  List.filterMap fun ev =>
    match ev with
    | .statusWrite s => some s
    | _ => none

/-- The full persisted status sequence of a job processed once: the PENDING
written by `create_job` followed by the writes of the run. -/
def statusSeq (env : Env) (url : String) : List JobStatus :=
  .pending :: statusWrites (runJob env url).trace

/-- Position of each status along the linear chain of §4.2. -/
def forwardRank : JobStatus → Nat
  | .pending => 0
  | .downloading => 1
  | .extractingAudio => 2
  | .uploading => 3
  | .transcribing => 4
  | .analyzing => 5
  | .generatingEmbeddings => 6
  | .storing => 7
  | .completed => 8
  | .failed => 9

/-- One admissible persisted transition per the claim: the predecessor is
non-terminal, and the successor is FAILED or lies forward (never backward)
along the chain, with the PENDING-to-COMPLETED jump excluded. -/
def okStep (a b : JobStatus) : Bool :=
  a != .completed && a != .failed &&
    (b == .failed ||
      (forwardRank a ≤ forwardRank b && !(a == .pending && b == .completed)))

/-- Every consecutive pair of the sequence is an admissible transition. -/
def chainOk : List JobStatus → Bool
  | [] => true
  | [_] => true
  | a :: b :: rest => okStep a b && chainOk (b :: rest)

/- ### Run characterisation: every run either completes cleanly or fails at
its first fatal error, recording FAILED (and the error text when non-empty)
as the last status write. -/

theorem runJob_cases (env : Env) (url : String) :
    ((runJob env url).result = .ok () ∧
      (runJob env url).state.job.status = .completed ∧
      (runJob env url).state.job.errorMessage = none) ∨
    (∃ e : Err, (runJob env url).result = .error e ∧
      (runJob env url).state.job.status = .failed ∧
      (runJob env url).state.job.errorMessage =
        (if e.msg = "" then none else some e.msg) ∧
      (runJob env url).trace.getLast? = some (.statusWrite .failed)) := by
  unfold runJob process_audio_job extractionStage convert_video_file_to_audio
  rcases hgh : routerGetHandler url with e | p
  · exact .inr ⟨e, rfl, rfl, rfl, rfl⟩
  dsimp only
  rcases hfm : env.fetchMetadata with e | md
  · exact .inr ⟨e, rfl, rfl, rfl, rfl⟩
  dsimp only
  rcases hvu : md.videoUrl with _ | v
  · exact .inr ⟨keyErrorVideoUrl, rfl, rfl, rfl, rfl⟩
  dsimp only
  rcases hdv : env.downloadVideo with e | dpath
  · exact .inr ⟨e, rfl, rfl, rfl, rfl⟩
  dsimp only
  rcases hea : env.extractAudio with e | u
  · exact .inr ⟨e, rfl, rfl, rfl, rfl⟩
  dsimp only
  rcases hra : env.readAudio with e | nb
  · exact .inr ⟨e, rfl, rfl, rfl, rfl⟩
  dsimp only
  rcases het : env.extractThumb with e | (_ | m) <;>
  · dsimp only
    rcases hut : env.uploadThumbnail with e | turl <;>
    · try dsimp only
      rcases hstdb : env.storeThumbnailDb with e | u2 <;>
      · try dsimp only
        rcases hua : env.uploadAudio with e | au
        · exact .inr ⟨e, rfl, rfl, rfl, rfl⟩
        try dsimp only
        rcases hsadb : env.storeAudioDb with e | u3
        · exact .inr ⟨⟨"Failed to store audio file: " ++ e.msg⟩, rfl, rfl, rfl, rfl⟩
        try dsimp only
        rcases htra : env.transcribeAudio with e | td
        · exact .inr ⟨e, rfl, rfl, rfl, rfl⟩
        try dsimp only
        rcases hstr : env.storeTranscriptionDb with e | u4
        · exact .inr ⟨⟨"Failed to store transcription: " ++ e.msg⟩, rfl, rfl, rfl, rfl⟩
        try dsimp only
        rcases hanr : env.analysisResponse with e | (pe | pj)
        · exact .inr ⟨⟨"Failed to analyze content: " ++ e.msg⟩, rfl, rfl, rfl, rfl⟩
        · exact .inr
            ⟨⟨"Failed to analyze content: Failed to parse AI analysis response: " ++ pe⟩,
              rfl, rfl, rfl, rfl⟩
        try dsimp only
        rcases hsan : env.storeAnalysisDb with e | u5
        · exact .inr ⟨⟨"Failed to store analysis: " ++ e.msg⟩, rfl, rfl, rfl, rfl⟩
        try dsimp only
        rcases hge : env.generateEmbeddings with e | vec
        · exact .inr ⟨e, rfl, rfl, rfl, rfl⟩
        try dsimp only
        rcases hse : env.storeEmbeddingDb with e | u6
        · exact .inr ⟨⟨"Failed to store embedding: " ++ e.msg⟩, rfl, rfl, rfl, rfl⟩
        exact .inl ⟨rfl, rfl, rfl⟩

/-- Claim C1: for every run of the orchestrator on a freshly created job, the
persisted status sequence (PENDING from job creation followed by every status
write of the run) only moves forward along the chain PENDING, DOWNLOADING,
EXTRACTING_AUDIO, UPLOADING, TRANSCRIBING, ANALYZING, GENERATING_EMBEDDINGS,
STORING, COMPLETED, with FAILED reachable from any non-terminal state; no
step moves backward, no step jumps from PENDING to COMPLETED, and nothing is
written after COMPLETED or FAILED. -/
theorem C1_status_monotone (env : Env) (url : String) :
    chainOk (statusSeq env url) = true := by
  unfold statusSeq runJob process_audio_job extractionStage convert_video_file_to_audio
  rcases hgh : routerGetHandler url with e | p
  · rfl
  dsimp only
  rcases hfm : env.fetchMetadata with e | md
  · rfl
  dsimp only
  rcases hvu : md.videoUrl with _ | v
  · rfl
  dsimp only
  rcases hdv : env.downloadVideo with e | dpath
  · rfl
  dsimp only
  rcases hea : env.extractAudio with e | u
  · rfl
  dsimp only
  rcases hra : env.readAudio with e | nb
  · rfl
  dsimp only
  rcases het : env.extractThumb with e | (_ | m) <;>
  · dsimp only
    rcases hut : env.uploadThumbnail with e | turl <;>
    · try dsimp only
      rcases hstdb : env.storeThumbnailDb with e | u2 <;>
      · try dsimp only
        rcases hua : env.uploadAudio with e | au
        · rfl
        try dsimp only
        rcases hsadb : env.storeAudioDb with e | u3
        · rfl
        try dsimp only
        rcases htra : env.transcribeAudio with e | td
        · rfl
        try dsimp only
        rcases hstr : env.storeTranscriptionDb with e | u4
        · rfl
        try dsimp only
        rcases hanr : env.analysisResponse with e | (pe | pj)
        · rfl
        · rfl
        try dsimp only
        rcases hsan : env.storeAnalysisDb with e | u5
        · rfl
        try dsimp only
        rcases hge : env.generateEmbeddings with e | vec
        · rfl
        try dsimp only
        rcases hse : env.storeEmbeddingDb with e | u6
        · rfl
        rfl

/-- Claim C9: on every exit path of the extraction stage - download and
conversion succeeding or raising - the scratch resources are removed before
the stage finishes: the event trace is either make-dir, remove-dir (download
raised, conversion never ran) or make-dir, create-temp-audio,
unlink-temp-audio, remove-dir; in both shapes the per-job temporary directory
removal is the last action and every temporary audio file created is
unlinked. -/
theorem C9_scratch_cleanup (env : Env) :
    (extractionStage env).1 = [.mkdtemp, .rmtreeTempDir] ∨
      (extractionStage env).1 =
        [.mkdtemp, .tmpAudioCreate, .tmpAudioUnlink, .rmtreeTempDir] := by
  unfold extractionStage convert_video_file_to_audio
  rcases hdv : env.downloadVideo with e | dpath
  · exact .inl rfl
  dsimp only
  rcases hea : env.extractAudio with e | u
  · exact .inr rfl
  dsimp only
  rcases hra : env.readAudio with e | nb
  · exact .inr rfl
  exact .inr rfl

/- ### Concrete runs used by counterexamples and witnesses. -/

/-- A supported-platform URL (`vm.tiktok.com` short link). -/
def urlTik : String := "https://vm.tiktok.com/abc123"

/-- An environment in which every external call succeeds and a thumbnail is
present. -/
def envAllOk : Env :=
  { fetchMetadata :=
      .ok ⟨some "https://cdn/v.mp4", some "Title", some 12, some "up", none,
        some "desc", none⟩
    downloadVideo := .ok "/tmp/job"
    extractAudio := .ok ()
    extractThumb := .ok 7
    readAudio := .ok 2048
    tmpAudioName := "tmp123.mp3"
    uploadThumbnail := .ok "supabase://thumbnails/t.jpg"
    storeThumbnailDb := .ok ()
    uploadAudio := .ok ("supabase://audio-files/a.mp3", "audio/a.mp3")
    storeAudioDb := .ok ()
    transcribeAudio := .ok ⟨"hello world", some "en", none⟩
    storeTranscriptionDb := .ok ()
    analysisResponse :=
      .ok (.ok ⟨some "A summary", some ["cooking"], some "positive", some "Tutorial"⟩)
    storeAnalysisDb := .ok ()
    generateEmbeddings := .ok [1, 0, 2]
    storeEmbeddingDb := .ok () }

/-- As `envAllOk`, but reading the converted audio file back raises an
exception whose `str()` is empty (line 327 of `audio_processor.py` is an
unwrapped `open`/`read`; e.g. `MemoryError()` renders as the empty
string). -/
def envEmptyMsgFail : Env := { envAllOk with readAudio := .error ⟨""⟩ }

/-- As `envAllOk`, but the thumbnail upload raises. -/
def envThumbUploadFail : Env :=
  { envAllOk with
    uploadThumbnail := .error ⟨"Failed to upload file to Supabase: 502 Bad Gateway"⟩ }

/-- As `envAllOk`, but the thumbnail record insert is refused by the
database. -/
def envThumbStoreFail : Env :=
  { envAllOk with storeThumbnailDb := .error ⟨"insert failed"⟩ }

/-- As `envAllOk`, but the transcription call raises. -/
def envTranscribeFail : Env :=
  { envAllOk with
    transcribeAudio := .error ⟨"Failed to transcribe audio: connection reset"⟩ }

/-- Claim C2 counterexample: a run whose conversion-output read raises an
exception with empty `str()` ends with status FAILED while `error_message` is
still null, because `update_job_status` skips falsy messages
(`if error_message:`); so FAILED does not imply a non-null (non-empty)
`error_message`. -/
theorem C2_failed_iff_error_cex :
    (runJob envEmptyMsgFail urlTik).state.job.status = .failed ∧
    (runJob envEmptyMsgFail urlTik).state.job.errorMessage = none := ⟨rfl, rfl⟩

/-- Claim C2 (amended): `error_message` is only ever set by the FAILED write,
so a non-null `error_message` implies status FAILED; a run failing with a
non-empty exception message records exactly that message with status FAILED;
and a successful run ends COMPLETED with `error_message` null.  (The original
biconditional fails only when the captured exception text is empty.) -/
theorem C2_failed_iff_error_amended (env : Env) (url : String) :
    ((runJob env url).state.job.errorMessage ≠ none →
      (runJob env url).state.job.status = .failed) ∧
    (∀ e : Err, (runJob env url).result = .error e → e.msg ≠ "" →
      (runJob env url).state.job.status = .failed ∧
      (runJob env url).state.job.errorMessage = some e.msg) ∧
    ((runJob env url).result = .ok () →
      (runJob env url).state.job.status = .completed ∧
      (runJob env url).state.job.errorMessage = none) := by
  rcases runJob_cases env url with ⟨h1, h2, h3⟩ | ⟨e0, h1, h2, h3, _⟩
  · refine ⟨fun hne => absurd h3 hne, ?_, fun _ => ⟨h2, h3⟩⟩
    intro e he
    rw [h1] at he
    exact absurd he (by simp)
  · refine ⟨fun _ => h2, ?_, ?_⟩
    · intro e he hne
      rw [h1] at he
      have h5 : e0 = e := by injection he
      subst h5
      exact ⟨h2, by rw [h3, if_neg hne]⟩
    · intro hok
      rw [h1] at hok
      exact absurd hok (by simp)

/-- Claim C2 witness: the amended theorem applied to a fully successful run:
COMPLETED with null `error_message`. -/
theorem C2_failed_iff_error_witness :
    (runJob envAllOk urlTik).state.job.status = .completed ∧
    (runJob envAllOk urlTik).state.job.errorMessage = none := by
  have h := C2_failed_iff_error_amended envAllOk urlTik
  exact h.2.2 rfl

/-- Claim C3 counterexample: the thumbnail-upload stage raises inside
`process_audio_job` (the environment fixes `upload_thumbnail` to raise), yet
the run exits normally: the result is a normal return, the job ends COMPLETED
and no FAILED status is written - so not every exception raised by a stage is
re-raised to the caller with FAILED recorded. -/
theorem C3_reraise_cex :
    (runJob envThumbUploadFail urlTik).result = .ok () ∧
    (runJob envThumbUploadFail urlTik).state.job.status = .completed ∧
    (runJob envThumbUploadFail urlTik).state.thumbnails = [] := ⟨rfl, rfl, rfl⟩

/-- The first exception raised by a fatal stage of `process_audio_job`, in
the source's call order (as the exception the orchestrator's boundary
receives, i.e. after the `store_*` / analysis wrappers); `none` when no fatal
stage raises.  The thumbnail upload/store step is absent: its exceptions are
handled by the inner `try` and are not fatal. -/
def firstFatalError (env : Env) (url : String) : Option Err :=
  match routerGetHandler url with
  | .error e => some e
  | .ok _ =>
  match env.fetchMetadata with
  | .error e => some e
  | .ok md =>
  match md.videoUrl with
  | none => some keyErrorVideoUrl
  | some _ =>
  match env.downloadVideo with
  | .error e => some e
  | .ok _ =>
  match env.extractAudio with
  | .error e => some e
  | .ok _ =>
  match env.readAudio with
  | .error e => some e
  | .ok _ =>
  match env.uploadAudio with
  | .error e => some e
  | .ok _ =>
  match env.storeAudioDb with
  | .error e => some ⟨"Failed to store audio file: " ++ e.msg⟩
  | .ok _ =>
  match env.transcribeAudio with
  | .error e => some e
  | .ok _ =>
  match env.storeTranscriptionDb with
  | .error e => some ⟨"Failed to store transcription: " ++ e.msg⟩
  | .ok _ =>
  match env.analysisResponse with
  | .error e => some ⟨"Failed to analyze content: " ++ e.msg⟩
  | .ok (.error pe) =>
      some ⟨"Failed to analyze content: Failed to parse AI analysis response: " ++ pe⟩
  | .ok (.ok _) =>
  match env.storeAnalysisDb with
  | .error e => some ⟨"Failed to store analysis: " ++ e.msg⟩
  | .ok _ =>
  match env.generateEmbeddings with
  | .error e => some e
  | .ok _ =>
  match env.storeEmbeddingDb with
  | .error e => some ⟨"Failed to store embedding: " ++ e.msg⟩
  | .ok _ => none

/-- A run's outcome is exactly its first fatal-stage exception re-raised, and
a normal return exactly when no fatal stage raises. -/
theorem runJob_result_eq_firstFatalError (env : Env) (url : String) :
    (runJob env url).result =
      (match firstFatalError env url with
        | some e => .error e
        | none => .ok ()) := by
  unfold runJob process_audio_job extractionStage convert_video_file_to_audio
    firstFatalError
  rcases hgh : routerGetHandler url with e | p
  · rfl
  dsimp only
  rcases hfm : env.fetchMetadata with e | md
  · rfl
  dsimp only
  rcases hvu : md.videoUrl with _ | v
  · rfl
  dsimp only
  rcases hdv : env.downloadVideo with e | dpath
  · rfl
  dsimp only
  rcases hea : env.extractAudio with e | u
  · rfl
  dsimp only
  rcases hra : env.readAudio with e | nb
  · rfl
  dsimp only
  rcases het : env.extractThumb with e | (_ | m) <;>
  · dsimp only
    rcases hut : env.uploadThumbnail with e | turl <;>
    · try dsimp only
      rcases hstdb : env.storeThumbnailDb with e | u2 <;>
      · try dsimp only
        rcases hua : env.uploadAudio with e | au
        · rfl
        try dsimp only
        rcases hsadb : env.storeAudioDb with e | u3
        · rfl
        try dsimp only
        rcases htra : env.transcribeAudio with e | td
        · rfl
        try dsimp only
        rcases hstr : env.storeTranscriptionDb with e | u4
        · rfl
        try dsimp only
        rcases hanr : env.analysisResponse with e | (pe | pj)
        · rfl
        · rfl
        try dsimp only
        rcases hsan : env.storeAnalysisDb with e | u5
        · rfl
        try dsimp only
        rcases hge : env.generateEmbeddings with e | vec
        · rfl
        try dsimp only
        rcases hse : env.storeEmbeddingDb with e | u6
        · rfl
        rfl

/-- Claim C3 (amended): for every exception that escapes a fatal stage (any
stage except the guarded thumbnail upload/store step) the orchestrator
catches it, writes status FAILED as the final status write (recording the
exception's message when it is non-empty), and re-raises the same exception;
it never swallows a fatal stage error and never exits normally after a fatal
stage failure: whenever some fatal stage raises, the run's outcome is exactly
the first such exception re-raised, and a run returns normally only when no
fatal stage raised. -/
theorem C3_reraise_amended (env : Env) (url : String) :
    (∀ e : Err, (runJob env url).result = .error e →
      (runJob env url).state.job.status = .failed ∧
      (e.msg ≠ "" →
        (runJob env url).state.job.errorMessage = some e.msg) ∧
      (runJob env url).trace.getLast? = some (.statusWrite .failed)) ∧
    (∀ e : Err, firstFatalError env url = some e →
      (runJob env url).result = .error e) ∧
    (firstFatalError env url = none → (runJob env url).result = .ok ()) := by
  refine ⟨?_, ?_, ?_⟩
  · intro e h
    rcases runJob_cases env url with ⟨h1, _, _⟩ | ⟨e0, h1, h2, h3, h4⟩
    · rw [h1] at h
      exact absurd h (by simp)
    · rw [h1] at h
      have he : e0 = e := by injection h
      subst he
      exact ⟨h2, fun hne => by rw [h3, if_neg hne], h4⟩
  · intro e h
    have hr := runJob_result_eq_firstFatalError env url
    rw [h] at hr
    exact hr
  · intro h
    have hr := runJob_result_eq_firstFatalError env url
    rw [h] at hr
    exact hr

/-- Claim C3 witness: the amended theorem applied to a run whose
transcription call raises: the fatal-stage exception is not swallowed - the
run's outcome is that same exception - and the job ends FAILED carrying its
message. -/
theorem C3_reraise_witness :
    (runJob envTranscribeFail urlTik).result =
      .error ⟨"Failed to transcribe audio: connection reset"⟩ ∧
    (runJob envTranscribeFail urlTik).state.job.status = .failed ∧
    (runJob envTranscribeFail urlTik).state.job.errorMessage =
      some "Failed to transcribe audio: connection reset" := by
  have h := C3_reraise_amended envTranscribeFail urlTik
  have hres := h.2.1 ⟨"Failed to transcribe audio: connection reset"⟩ rfl
  have hfail := h.1 ⟨"Failed to transcribe audio: connection reset"⟩ hres
  exact ⟨hres, hfail.1, hfail.2.1 (by decide)⟩

/-- Claim C4: if the transcription stage raises after the audio upload and
the AudioArtifact insert succeeded, the run aborts the remaining stages and
re-raises: the job ends FAILED with the captured error text, the audio_files
row persisted earlier is still present (exactly one row, never deleted or
rolled back), and no transcription, analysis or embedding row was written. -/
theorem C4_transcription_failure (env : Env) (url : String) (p : Platform)
    (md : VideoMetadata) (v dp : String) (nb : Nat) (au : String × String)
    (e : Err)
    (hgh : routerGetHandler url = .ok p)
    (hfm : env.fetchMetadata = .ok md) (hvu : md.videoUrl = some v)
    (hdv : env.downloadVideo = .ok dp) (hea : env.extractAudio = .ok ())
    (hra : env.readAudio = .ok nb)
    (hua : env.uploadAudio = .ok au) (hsadb : env.storeAudioDb = .ok ())
    (htra : env.transcribeAudio = .error e) (hne : e.msg ≠ "") :
    (runJob env url).result = .error e ∧
    (runJob env url).state.job.status = .failed ∧
    (runJob env url).state.job.errorMessage = some e.msg ∧
    (runJob env url).state.audioFiles.length = 1 ∧
    (runJob env url).state.transcriptions = [] ∧
    (runJob env url).state.analyses = [] ∧
    (runJob env url).state.embeddings = [] := by
  have key : (runJob env url).result = .error e ∧
      (runJob env url).state.audioFiles.length = 1 ∧
      (runJob env url).state.transcriptions = [] ∧
      (runJob env url).state.analyses = [] ∧
      (runJob env url).state.embeddings = [] := by
    unfold runJob process_audio_job extractionStage convert_video_file_to_audio
    rw [hgh]
    dsimp only
    rw [hfm]
    dsimp only
    rw [hvu]
    dsimp only
    rw [hdv]
    dsimp only
    rw [hea]
    dsimp only
    rw [hra]
    dsimp only
    rcases het : env.extractThumb with e7 | (_ | m) <;>
    · try dsimp only
      rcases hut : env.uploadThumbnail with e8 | turl <;>
      · try dsimp only
        rcases hstdb : env.storeThumbnailDb with e9 | u9 <;>
        · try dsimp only
          rw [hua]
          try dsimp only
          rw [hsadb]
          try dsimp only
          rw [htra]
          exact ⟨rfl, rfl, rfl, rfl, rfl⟩
  rcases runJob_cases env url with ⟨h1, _, _⟩ | ⟨e0, h1, h2, h3, _⟩
  · rw [key.1] at h1
    exact absurd h1 (by simp)
  · rw [key.1] at h1
    have he : e = e0 := by injection h1
    subst he
    exact ⟨key.1, h2, by rw [h3, if_neg hne], key.2.1, key.2.2.1,
      key.2.2.2.1, key.2.2.2.2⟩

/-- Claim C4 witness: the theorem applied to a concrete run whose
transcription call raises after a successful upload. -/
theorem C4_transcription_failure_witness :
    (runJob envTranscribeFail urlTik).result =
      .error ⟨"Failed to transcribe audio: connection reset"⟩ ∧
    (runJob envTranscribeFail urlTik).state.job.status = .failed ∧
    (runJob envTranscribeFail urlTik).state.audioFiles.length = 1 ∧
    (runJob envTranscribeFail urlTik).state.transcriptions = [] := by
  have h := C4_transcription_failure envTranscribeFail urlTik .tiktok
      ⟨some "https://cdn/v.mp4", some "Title", some 12, some "up", none,
        some "desc", none⟩
      "https://cdn/v.mp4" "/tmp/job" 2048
      ("supabase://audio-files/a.mp3", "audio/a.mp3")
      ⟨"Failed to transcribe audio: connection reset"⟩
      rfl rfl rfl rfl rfl rfl rfl rfl rfl (by decide)
  exact ⟨h.1, h.2.1, h.2.2.2.1, h.2.2.2.2.1⟩

/-- Claim C5: if every stage succeeds except that the thumbnail upload (or
the thumbnail record insert) raises, the failure is non-fatal: the run exits
normally, the job ends COMPLETED with null `error_message`, the audio file,
transcript, analysis and embedding rows are all present, and no thumbnail row
exists. -/
theorem C5_thumbnail_nonfatal (env : Env) (url : String) (p : Platform)
    (md : VideoMetadata) (v dp tu : String) (nb tn : Nat)
    (au : String × String) (td : TranscriptData) (aj : AnalysisJson)
    (vec : List Int) (et : Err)
    (hgh : routerGetHandler url = .ok p)
    (hfm : env.fetchMetadata = .ok md) (hvu : md.videoUrl = some v)
    (hdv : env.downloadVideo = .ok dp) (hea : env.extractAudio = .ok ())
    (hra : env.readAudio = .ok nb)
    (het : env.extractThumb = .ok tn) (htn : tn ≠ 0)
    (hthumb : env.uploadThumbnail = .error et ∨
      (env.uploadThumbnail = .ok tu ∧ env.storeThumbnailDb = .error et))
    (hua : env.uploadAudio = .ok au) (hsadb : env.storeAudioDb = .ok ())
    (htra : env.transcribeAudio = .ok td)
    (hstr : env.storeTranscriptionDb = .ok ())
    (hanr : env.analysisResponse = .ok (.ok aj))
    (hsan : env.storeAnalysisDb = .ok ())
    (hge : env.generateEmbeddings = .ok vec)
    (hse : env.storeEmbeddingDb = .ok ()) :
    (runJob env url).result = .ok () ∧
    (runJob env url).state.job.status = .completed ∧
    (runJob env url).state.job.errorMessage = none ∧
    (runJob env url).state.thumbnails = [] ∧
    (runJob env url).state.audioFiles.length = 1 ∧
    (runJob env url).state.transcriptions.length = 1 ∧
    (runJob env url).state.analyses.length = 1 ∧
    (runJob env url).state.embeddings.length = 1 := by
  unfold runJob process_audio_job extractionStage convert_video_file_to_audio
  rw [hgh]
  dsimp only
  rw [hfm]
  dsimp only
  rw [hvu]
  dsimp only
  rw [hdv]
  dsimp only
  rw [hea]
  dsimp only
  rw [hra]
  dsimp only
  rw [het]
  dsimp only
  have hcond : pyTruthyBytes (some tn) = true := by
    simp only [pyTruthyBytes, bne_iff_ne, ne_eq]
    exact htn
  rw [if_pos hcond]
  try dsimp only
  rcases hthumb with h | ⟨h1, h2⟩
  · rw [h]
    rw [hua, hsadb, htra, hstr, hanr, hsan, hge, hse]
    exact ⟨rfl, rfl, rfl, rfl, rfl, rfl, rfl, rfl⟩
  · rw [h1]
    try dsimp only
    rw [h2]
    rw [hua, hsadb, htra, hstr, hanr, hsan, hge, hse]
    exact ⟨rfl, rfl, rfl, rfl, rfl, rfl, rfl, rfl⟩

/-- Claim C5 witness: the theorem applied to a concrete run whose thumbnail
upload raises while everything else succeeds. -/
theorem C5_thumbnail_nonfatal_witness :
    (runJob envThumbUploadFail urlTik).result = .ok () ∧
    (runJob envThumbUploadFail urlTik).state.job.status = .completed ∧
    (runJob envThumbUploadFail urlTik).state.thumbnails = [] ∧
    (runJob envThumbUploadFail urlTik).state.audioFiles.length = 1 ∧
    (runJob envThumbUploadFail urlTik).state.transcriptions.length = 1 ∧
    (runJob envThumbUploadFail urlTik).state.analyses.length = 1 ∧
    (runJob envThumbUploadFail urlTik).state.embeddings.length = 1 := by
  have h := C5_thumbnail_nonfatal envThumbUploadFail urlTik .tiktok
      ⟨some "https://cdn/v.mp4", some "Title", some 12, some "up", none,
        some "desc", none⟩
      "https://cdn/v.mp4" "/tmp/job" "unused" 2048 7
      ("supabase://audio-files/a.mp3", "audio/a.mp3")
      ⟨"hello world", some "en", none⟩
      ⟨some "A summary", some ["cooking"], some "positive", some "Tutorial"⟩
      [1, 0, 2]
      ⟨"Failed to upload file to Supabase: 502 Bad Gateway"⟩
      rfl rfl rfl rfl rfl rfl rfl (by decide) (.inl rfl) rfl rfl rfl rfl rfl
      rfl rfl rfl
  exact ⟨h.1, h.2.1, h.2.2.2.1, h.2.2.2.2.1, h.2.2.2.2.2.1,
    h.2.2.2.2.2.2.1, h.2.2.2.2.2.2.2⟩

/-- Claim C6: `detect_platform` is total and deterministic - every input is
mapped to exactly one platform tag (the embedding is a function, so no
exception can escape) - and it returns "unknown" for non-string input, for
the empty string, and for every string matched by none of the supported
platforms\x27 URL patterns after normalisation. -/
theorem C6_detect_total :
    (∀ v : PyVal, ∃! p : Platform, detect_platform v = p) ∧
    detect_platform .nonStr = .unknown ∧
    detect_platform (.str "") = .unknown ∧
    (∀ s : String, matchesAnyPlatform (pyNormalize s.data) = false →
      detect_platform (.str s) = .unknown) := by
  refine ⟨fun v => ⟨detect_platform v, rfl, fun q hq => hq.symm⟩, rfl, rfl, ?_⟩
  intro s h
  unfold detect_platform
  dsimp only
  by_cases hs : s.data = []
  · rw [if_pos hs]
  · rw [if_neg hs]
    simp only [matchesAnyPlatform, Bool.or_eq_false_iff] at h
    simp [detectCore, h.1.1.1, h.1.1.2, h.1.2, h.2]

/-- Claim C6 witness: the theorem applied to the unsupported URL of the spec
scenario. -/
theorem C6_detect_total_witness :
    matchesAnyPlatform (pyNormalize "https://example.com/video.mp4".data) = false ∧
    detect_platform (.str "https://example.com/video.mp4") = .unknown := by
  exact ⟨by decide,
    C6_detect_total.2.2.2 "https://example.com/video.mp4" (by decide)⟩

/-- Claim C7: the spec scenario - the TikTok video URL maps to "tiktok"; the
Instagram reel URL maps to "instagram" and its extracted reel id is
"ABC12345"; the plain mp4 URL maps to "unknown" and `get_handler` raises the
unsupported-platform error for it. -/
theorem C7_scenario :
    detect_platform (.str "https://www.tiktok.com/@user/video/123456789") = .tiktok ∧
    detect_platform (.str "https://instagram.com/reel/ABC12345/") = .instagram ∧
    extract_reel_id "https://instagram.com/reel/ABC12345/" = .ok "ABC12345" ∧
    detect_platform (.str "https://example.com/video.mp4") = .unknown ∧
    routerGetHandler "https://example.com/video.mp4" =
      .error ⟨unsupportedPlatformMsg⟩ :=
  ⟨by decide, by decide, by rfl, by decide, by rfl⟩

/-- Claim C8 counterexample: a well-formed analysis response that is missing
the required `category` field does not fail - `analyze_content` substitutes
the default "other" and returns normally, so a missing required field is not
a fatal error. -/
theorem C8_missing_field_cex :
    analyze_content_parsed
        (.ok ⟨some "A summary", some ["cooking"], some "positive", none⟩) =
      .ok ⟨"A summary", ["cooking"], "positive", "other"⟩ := by rfl

/-- Claim C8 (amended): an unparseable (malformed) JSON response is a fatal
error (the wrapped RuntimeError chain), but a parseable response missing
required fields succeeds with substituted defaults: "No summary available",
`[]`, "neutral", "other"; the returned sentiment is always one of positive,
neutral, negative. -/
theorem C8_malformed_response_amended :
    (∀ msg : String,
      analyze_content_parsed (.error msg) =
        .error ⟨"Failed to analyze content: Failed to parse AI analysis response: "
          ++ msg⟩) ∧
    (∀ j : AnalysisJson, ∃ d : AnalysisData,
      analyze_content_parsed (.ok j) = .ok d ∧
      d.summary = j.summary.getD "No summary available" ∧
      d.topics = j.topics.getD [] ∧
      d.category = pyLowerStr (j.category.getD "other") ∧
      (j.sentiment = none → d.sentiment = "neutral") ∧
      (d.sentiment = "positive" ∨ d.sentiment = "neutral" ∨
        d.sentiment = "negative")) := by
  refine ⟨fun msg => rfl, fun j => ?_⟩
  refine ⟨⟨j.summary.getD "No summary available", j.topics.getD [],
      if pyLowerStr (j.sentiment.getD "neutral") = "positive" ∨
          pyLowerStr (j.sentiment.getD "neutral") = "neutral" ∨
          pyLowerStr (j.sentiment.getD "neutral") = "negative"
        then pyLowerStr (j.sentiment.getD "neutral") else "neutral",
      pyLowerStr (j.category.getD "other")⟩, rfl, rfl, rfl, rfl, ?_, ?_⟩
  · intro hs
    rw [hs]
    dsimp only
    decide
  · by_cases hcond : pyLowerStr (j.sentiment.getD "neutral") = "positive" ∨
        pyLowerStr (j.sentiment.getD "neutral") = "neutral" ∨
        pyLowerStr (j.sentiment.getD "neutral") = "negative"
    · dsimp only
      rw [if_pos hcond]
      exact hcond
    · dsimp only
      rw [if_neg hcond]
      exact .inr (.inl rfl)

/-- Claim C8 witness: the amended theorem applied to the response missing
every required field: the stage still succeeds and the sentiment default is
"neutral". -/
theorem C8_malformed_response_witness :
    ∃ d : AnalysisData,
      analyze_content_parsed (.ok ⟨none, none, none, none⟩) = .ok d ∧
      d.sentiment = "neutral" := by
  obtain ⟨d, hd, _, _, _, hs, _⟩ :=
    C8_malformed_response_amended.2 ⟨none, none, none, none⟩
  exact ⟨d, hd, hs rfl⟩

/-- The body of `detect_platform` on the character data of a string input. -/
def detectOnData (l : List Char) : Platform :=
  if l = [] then .unknown else detectCore (pyNormalize l)

theorem detectOnData_normalize (l : List Char) :
    detectOnData (pyNormalize l) = detectOnData l := by
  unfold detectOnData
  by_cases h0 : l = []
  · subst h0
    rfl
  · rw [if_neg h0]
    by_cases h1 : pyNormalize l = []
    · rw [if_pos h1, h1]
      decide
    · rw [if_neg h1, pyNormalize_idem]

/-- Claim C10: `detect_platform` is invariant under the normalisation it
performs - for every string, detecting on the whitespace-stripped,
lower-cased string gives the same platform tag as detecting on the original
string. -/
theorem C10_detect_normalize (s : String) :
    detect_platform (.str (String.mk (pyNormalize s.data))) =
      detect_platform (.str s) :=
  detectOnData_normalize s.data

end RecipeSave

